import Mathlib

/-
Shallow embedding of the deepklarity-backend quiz-generation pipeline:

* `src/services/cache_service.py` — `CacheService` (Redis-backed cache and
  fixed-window rate limiter).  The Redis connection is modelled by `Client`:
  `disconnected` (the constructor failed and `redis_client is None`),
  `unreachable st` (a client object exists but every Redis call raises, so
  each operation's `except` branch runs), and `up st` (a reachable store).
  Redis keeps one string keyspace; since `INCR` interprets values as
  integers we model plain string values (`kv`) and counters (`counters`)
  as separate association lists, plus the per-key TTLs set by `EXPIRE` /
  `SETEX` (`ttls`).  Cached payloads are kept as their serialized strings.

* `src/services/llm_service.py` — `LLMService.generate_quiz` and its
  helpers.  The external model call and the response-parsing chain act on
  provider text we cannot compute, so each retry attempt is driven by an
  environment oracle `Nat → AttemptOutcome`: the provider call raises
  (`providerError`), the SIGALRM 25s budget fires during the call
  (`timeoutDuringCall`), the structured parser succeeds (`parsed q`), or
  the parser fails and `_extract_json_manually` (which never raises)
  yields `q` (`manual q`).  Parsed/manually-extracted quiz data can miss
  fields, hence the `Option` fields of `RawQuestion` / `RawQuiz`.

* `src/main.py` — the `/api/quizzes/generate` endpoint's rate-limit call.
-/

/-! ## Data model -/

/-- A question record as carried in `quiz_data["questions"]`.  Fields are
`Option`s because manually extracted JSON may lack keys; the validator
checks presence of every field except `section_reference`. -/
structure RawQuestion where
  id : Option String
  question : Option String
  options : Option (List String)
  answer : Option String
  difficulty : Option String
  explanation : Option String
  evidence_span : Option String
  section_reference : Option String
  deriving DecidableEq, Repr

/-- `key_entities` mapping of the quiz payload. -/
structure KeyEntities where
  people : List String
  organizations : List String
  locations : List String
  deriving DecidableEq, Repr

/-- The quiz payload dictionary built by parsing or fallback generation. -/
structure RawQuiz where
  questions : Option (List RawQuestion)
  related_topics : Option (List String)
  key_entities : Option KeyEntities
  deriving DecidableEq, Repr

/-- Python exceptions relevant to `generate_quiz`: `TimeoutError` raised by
the SIGALRM handler, `ValueError`, `KeyError`, and any other `Exception`
(carrying its `str`). -/
inductive PyExc where
  | timeoutErr
  | valueError (msg : String)
  | keyError (key : String)
  | genericError (msg : String)
  deriving DecidableEq, Repr

/-- `str(e)` of a modelled exception; `str` of a `KeyError` wraps the key in
quotes. -/
def exc_str : PyExc → String
  | PyExc.timeoutErr => "LLM generation timed out after 25 seconds"
  | PyExc.valueError m => m
  | PyExc.keyError k => "\x27" ++ k ++ "\x27"
  | PyExc.genericError m => m

/-- The outer `except Exception` handler of `generate_quiz` re-raises every
non-timeout exception as `Exception("Failed to generate quiz: " + str(e))`. -/
def wrap_exc (e : PyExc) : PyExc :=
  PyExc.genericError ("Failed to generate quiz: " ++ exc_str e)

/-- A `difficulty_distribution` dictionary: insertion-ordered string keys
with integer values. -/
abbrev DifficultyDist := List (String × Int)

/-! ## Association-list primitives (Python dict / Redis keyspace) -/

/-- Dictionary read: value of the first matching key. -/
def alist_get {α : Type} : List (String × α) → String → Option α
  | [], _ => none
  | (k', v) :: rest, k => if k' = k then some v else alist_get rest k

/-- Dictionary write (insert or overwrite). -/
def alist_set {α : Type} : List (String × α) → String → α → List (String × α)
  | [], k, v => [(k, v)]
  | (k', v') :: rest, k, v =>
    if k' = k then (k, v) :: rest else (k', v') :: alist_set rest k v

/-- `d[key] += delta` on a Python dict: `none` models the `KeyError` raised
when the key is absent. -/
def add_to_key : DifficultyDist → String → Int → Option DifficultyDist
  | [], _, _ => none
  | (k', v) :: rest, k, delta =>
    if k' = k then some ((k', v + delta) :: rest)
    else
      match add_to_key rest k delta with
      | some rest2 => some ((k', v) :: rest2)
      | none => none

/-- `sum(d.values())`. -/
def sum_values (d : DifficultyDist) : Int :=
  (d.map (fun p => p.2)).sum

/-- `key in d`. -/
def has_key (d : DifficultyDist) (k : String) : Bool :=
  d.any (fun p => p.1 == k)

/-! ## cache_service.py -/

/-- The Redis store contents visible to `CacheService`. -/
structure RedisState where
  kv : List (String × String)
  counters : List (String × Nat)
  ttls : List (String × Int)
  deriving DecidableEq, Repr

/-- Connection state of `CacheService.redis_client` (see file header). -/
inductive Client where
  | disconnected
  | unreachable (st : RedisState)
  | up (st : RedisState)
  deriving DecidableEq, Repr

/-- `SETEX key ttl value`. -/
def redis_setex (st : RedisState) (key : String) (ttl : Int) (value : String) : RedisState :=
  { st with kv := alist_set st.kv key value, ttls := alist_set st.ttls key ttl }

/-- `INCR key`: create-at-1 or increment, returning the new value. -/
def redis_incr (st : RedisState) (key : String) : RedisState × Nat :=
  let current := (alist_get st.counters key).getD 0 + 1
  ({ st with counters := alist_set st.counters key current }, current)

/-- `EXPIRE key window`. -/
def redis_expire (st : RedisState) (key : String) (window : Int) : RedisState :=
  { st with ttls := alist_set st.ttls key window }

/-- `CacheService.cache_quiz`: returns `False` without raising when the
client is missing or the store call raises; otherwise `SETEX` under the
`quiz:` namespace and `True`. -/
def cache_quiz (client : Client) (quiz_id : String) (quiz_data : String) (ttl : Int) :
    Client × Bool :=
  match client with
  | Client.disconnected => (Client.disconnected, false)
  | Client.unreachable st => (Client.unreachable st, false)
  | Client.up st => (Client.up (redis_setex st ("quiz:" ++ quiz_id) ttl quiz_data), true)

/-- `CacheService.get_cached_quiz`: `None` when the client is missing, the
call raises, or the key is absent. -/
def get_cached_quiz (client : Client) (quiz_id : String) : Option String :=
  match client with
  | Client.disconnected => none
  | Client.unreachable _ => none
  | Client.up st => alist_get st.kv ("quiz:" ++ quiz_id)

/-- `CacheService.cache_quiz_list` (namespace `user_quizzes:`). -/
def cache_quiz_list (client : Client) (user_id : String) (quiz_payload : String) (ttl : Int) :
    Client × Bool :=
  match client with
  | Client.disconnected => (Client.disconnected, false)
  | Client.unreachable st => (Client.unreachable st, false)
  | Client.up st => (Client.up (redis_setex st ("user_quizzes:" ++ user_id) ttl quiz_payload), true)

/-- `CacheService.get_cached_quiz_list`. -/
def get_cached_quiz_list (client : Client) (user_id : String) : Option String :=
  match client with
  | Client.disconnected => none
  | Client.unreachable _ => none
  | Client.up st => alist_get st.kv ("user_quizzes:" ++ user_id)

/-- `CacheService.increment_rate_limit`: fail-open `True` when the client is
missing or the store raises; otherwise `INCR`, `EXPIRE` on the first count
of a window, and `False` iff the post-increment count exceeds the limit
(the increment is never rolled back). -/
def increment_rate_limit (client : Client) (identifier : String) (limit : Nat) (window : Int) :
    Client × Bool :=
  match client with
  | Client.disconnected => (Client.disconnected, true)
  | Client.unreachable st => (Client.unreachable st, true)
  | Client.up st =>
    let key := "rate_limit:" ++ identifier
    let r := redis_incr st key
    let st2 := if r.2 = 1 then redis_expire r.1 key window else r.1
    if r.2 > limit then (Client.up st2, false) else (Client.up st2, true)

/-- `k` successive `increment_rate_limit` calls for one identifier. -/
def acquire_iter (client : Client) (identifier : String) (limit : Nat) (window : Int) :
    Nat → Client
  | 0 => client
  | k + 1 =>
    (increment_rate_limit (acquire_iter client identifier limit window k) identifier limit window).1

/-- The stored counter value for a key, when the store is reachable. -/
def client_counter (client : Client) (key : String) : Option Nat :=
  match client with
  | Client.up st => alist_get st.counters key
  | _ => none

/-! ## llm_service.py — LLMService.generate_quiz -/

/-- What one iteration of the retry loop observes (see file header):
either `_invoke_llm` raises (a provider fault, or the SIGALRM `TimeoutError`
firing during the call), or it returns text that the structured parser
accepts as `q`, or the parser fails and manual JSON extraction yields `q`. -/
inductive AttemptOutcome where
  | providerError (msg : String)
  | timeoutDuringCall
  | parsed (q : RawQuiz)
  | manual (q : RawQuiz)

/-- `str(uuid.uuid4())`: a random fresh id, modelled as a fixed placeholder
string (no claim depends on id values). -/
def uuid_placeholder : String := "00000000-0000-0000-0000-000000000000"

/-- The default distribution derived when the caller's dict is falsy
(`None` or empty).  Only called with `question_count` in `[5, 10]`, where
Python floor division agrees with `Int` division. -/
def default_distribution (n : Int) : DifficultyDist :=
  [("easy", max 2 (n / 3)), ("medium", max 2 (n / 2)),
   ("hard", max 1 (n - (n / 3 + n / 2)))]

/-- The dictionary normalization works on: the caller's dict when truthy,
else the freshly built default. -/
def initial_distribution (n : Int) (dist : Option DifficultyDist) : DifficultyDist :=
  match dist with
  | none => default_distribution n
  | some [] => default_distribution n
  | some d => d

/-- The sum-adjustment step: if the values do not sum to `question_count`,
add the difference to the `medium` entry in place; a dict without a
`medium` key raises `KeyError`. -/
def normalize_distribution (n : Int) (d : DifficultyDist) : Except PyExc DifficultyDist :=
  let total := sum_values d
  if total = n then Except.ok d
  else
    match add_to_key d "medium" (n - total) with
    | some d2 => Except.ok d2
    | none => Except.error (PyExc.keyError "medium")

/-- Truncation of the article body to 8000 characters plus an ellipsis. -/
def truncate_content (content : String) : String :=
  if content.length > 8000 then content.take 8000 ++ "..." else content

/-- The retry loop (`for attempt in range(max_retries)`), iterating over the
remaining attempt indices.  A successful structured parse breaks
immediately; a manual extraction breaks only when it produced at least one
question but still overwrites `quiz_data`; an exception from the provider
call is re-raised on the last attempt (`attempt == max_retries - 1`) and
otherwise swallowed (after a backoff sleep).  Returns the loop's outcome
and the number of provider invocations. -/
def attempt_go (oracle : Nat → AttemptOutcome) (quiz_data : Option RawQuiz) :
    List Nat → Except PyExc (Option RawQuiz) × Nat
  | [] => (Except.ok quiz_data, 0)
  | attempt :: rest =>
    match oracle attempt with
    | AttemptOutcome.parsed q => (Except.ok (some q), 1)
    | AttemptOutcome.manual q =>
      if 0 < (q.questions.getD []).length then (Except.ok (some q), 1)
      else
        let r := attempt_go oracle (some q) rest
        (r.1, r.2 + 1)
    | AttemptOutcome.providerError msg =>
      match rest with
      | [] => (Except.error (PyExc.genericError msg), 1)
      | _ :: _ =>
        let r := attempt_go oracle quiz_data rest
        (r.1, r.2 + 1)
    | AttemptOutcome.timeoutDuringCall =>
      match rest with
      | [] => (Except.error PyExc.timeoutErr, 1)
      | _ :: _ =>
        let r := attempt_go oracle quiz_data rest
        (r.1, r.2 + 1)

/-- The full `max_retries = 3` loop. -/
def attempt_loop (oracle : Nat → AttemptOutcome) : Except PyExc (Option RawQuiz) × Nat :=
  attempt_go oracle none [0, 1, 2]

/-- The three distractor probes of `_generate_basic_questions` (`j` in
`range(3)`): sentence at `(i + j + 1) % len(sentences)`, kept when its
index differs from `i` and its stripped text is longer than 30. -/
def collect_distractors (sentences : List String) (i : Nat) : List String :=
  ([0, 1, 2] : List Nat).filterMap (fun j =>
    let other_idx := (i + j + 1) % sentences.length
    let other_sentence := (sentences.getD other_idx "").trim
    if other_idx ≠ i ∧ other_sentence.length > 30 then some other_sentence else none)

/-- One candidate heuristic question from sentence `i`: requires a stripped
sentence longer than 50 characters with more than 5 whitespace-separated
words and at least 3 collected distractors. -/
def sentence_question (sentences : List String) (i : Nat) : Option RawQuestion :=
  let sentence := (sentences.getD i "").trim
  if sentence.length > 50 then
    let words := (sentence.split (fun c => c.isWhitespace)).filter (fun w => w ≠ "")
    if words.length > 5 then
      let correct_answer := sentence
      let distractors := collect_distractors sentences i
      if distractors.length ≥ 3 then
        some
          { id := some uuid_placeholder
            question := some ("What does the article state about "
              ++ (words.getD 0 "").toLower ++ "?")
            options := some (correct_answer :: distractors.take 3)
            answer := some correct_answer
            difficulty := some "easy"
            explanation := some ("This information is found directly in the article: \x27"
              ++ sentence ++ "\x27")
            evidence_span := some (if sentence = "" then "insufficient evidence in article"
              else sentence)
            section_reference := some ("Paragraph " ++ toString (i + 1)) }
      else none
    else none
  else none

/-- The generic padding question appended while fewer than `question_count`
questions exist. -/
def placeholder_question : RawQuestion :=
  { id := some uuid_placeholder
    question := some "What is the main topic of this article?"
    options := some ["The main topic", "A secondary topic", "An unrelated topic",
      "A different subject"]
    answer := some "The main topic"
    difficulty := some "easy"
    explanation := some "This question tests basic comprehension of the article content."
    evidence_span := some "insufficient evidence in article"
    section_reference := some "General" }

/-- The `while len(questions) < question_count` padding loop: appends the
placeholder until the target count is reached, i.e. appends the shortfall. -/
def pad_questions (target : Nat) (qs : List RawQuestion) : List RawQuestion :=
  qs ++ List.replicate (target - qs.length) placeholder_question

/-- `LLMService._generate_basic_questions`: sentence-split heuristic
questions, padding, and truncation to `question_count` (the
`difficulty_distribution` parameter is unused in the source too; the
defensive `except` wrapping pure list/string operations is unreachable). -/
def generate_basic_questions (content : String) (question_count : Int)
    (_difficulty_distribution : DifficultyDist) : RawQuiz :=
  let sentences := content.splitOn "."
  let core := (List.range (min question_count.toNat (sentences.length - 1))).filterMap
    (sentence_question sentences)
  let questions := pad_questions question_count.toNat core
  { questions := some (questions.take question_count.toNat)
    related_topics := some ["Technology", "Science", "Education"]
    key_entities := some { people := [], organizations := [], locations := [] } }

/-- `question.get("section_reference") or "insufficient evidence in article"`. -/
def evidence_fallback (q : RawQuestion) : String :=
  match q.section_reference with
  | some sr => if sr = "" then "insufficient evidence in article" else sr
  | none => "insufficient evidence in article"

/-- The post-processing pass of `generate_quiz`: fill a missing or falsy
`id` with a fresh uuid, and a missing or falsy `evidence_span` with the
section reference or the sentinel. -/
def postprocess_question (q : RawQuestion) : RawQuestion :=
  let q1 :=
    match q.id with
    | none => { q with id := some uuid_placeholder }
    | some s => if s = "" then { q with id := some uuid_placeholder } else q
  match q1.evidence_span with
  | none => { q1 with evidence_span := some (evidence_fallback q1) }
  | some s => if s = "" then { q1 with evidence_span := some (evidence_fallback q1) } else q1

/-- Post-processing over the whole payload (`quiz_data.get("questions", [])`
is mutated element-wise; an absent key stays absent). -/
def postprocess_quiz (quiz : RawQuiz) : RawQuiz :=
  { quiz with questions := quiz.questions.map (fun qs => qs.map postprocess_question) }

/-- One structural question check of `LLMService._validate_quiz_data`:
required-field presence in source order, exactly 4 options, a known
difficulty, and answer membership.  The grounding check that follows in
the source (`_validate_question_content`) only logs a warning and is
omitted as semantically inert. -/
def validate_question (i : Nat) (q : RawQuestion) : Except PyExc Unit :=
  if q.id = none then
    Except.error (PyExc.valueError ("Question " ++ toString i ++ " missing required field: id"))
  else if q.question = none then
    Except.error (PyExc.valueError ("Question " ++ toString i
      ++ " missing required field: question"))
  else if q.options = none then
    Except.error (PyExc.valueError ("Question " ++ toString i
      ++ " missing required field: options"))
  else if q.answer = none then
    Except.error (PyExc.valueError ("Question " ++ toString i
      ++ " missing required field: answer"))
  else if q.difficulty = none then
    Except.error (PyExc.valueError ("Question " ++ toString i
      ++ " missing required field: difficulty"))
  else if q.explanation = none then
    Except.error (PyExc.valueError ("Question " ++ toString i
      ++ " missing required field: explanation"))
  else if q.evidence_span = none then
    Except.error (PyExc.valueError ("Question " ++ toString i
      ++ " missing required field: evidence_span"))
  else if (q.options.getD []).length ≠ 4 then
    Except.error (PyExc.valueError ("Question " ++ toString i ++ " must have exactly 4 options"))
  else if ¬ (q.difficulty.getD "") ∈ (["easy", "medium", "hard"] : List String) then
    Except.error (PyExc.valueError ("Question " ++ toString i ++ " has invalid difficulty"))
  else if (q.answer.getD "") ∈ q.options.getD [] then Except.ok ()
  else
    Except.error (PyExc.valueError ("Question " ++ toString i
      ++ " answer must be one of the options"))

/-- The per-question validation loop (`for i, question in enumerate(...)`). -/
def validate_questions (i : Nat) : List RawQuestion → Except PyExc Unit
  | [] => Except.ok ()
  | q :: rest =>
    match validate_question i q with
    | Except.error e => Except.error e
    | Except.ok _ => validate_questions (i + 1) rest

/-- `LLMService._validate_quiz_data`: the payload must carry a `questions`
list (the dict/list `isinstance` checks hold by construction here); a
question-count mismatch only logs a warning. -/
def validate_quiz_data (quiz : RawQuiz) : Except PyExc Unit :=
  match quiz.questions with
  | none => Except.error (PyExc.valueError "Quiz data must contain questions field")
  | some qs => validate_questions 0 qs

/-- What `generate_quiz` produces in this model: the returned payload or
raised exception, how many provider calls were made, and the caller's
`difficulty_distribution` dict as visible after the call (the source
mutates it in place during normalization). -/
structure GenOutcome where
  result : Except PyExc RawQuiz
  providerCalls : Nat
  distAfter : Option DifficultyDist
  deriving Repr

/-- The caller-visible dict after normalization: only a truthy caller dict
is the same object the code mutates; a falsy one is replaced by a fresh
local default. -/
def caller_dist_after (dist : Option DifficultyDist) (dd : DifficultyDist) :
    Option DifficultyDist :=
  match dist with
  | some (_ :: _) => some dd
  | _ => dist

/-- `generate_quiz` from the retry loop onward: truncate the body, run the
attempts, fall back to `_generate_basic_questions` when no attempt
produced a question, post-process and validate.  A `TimeoutError`
escaping the loop is caught by `except TimeoutError` and answered with
the heuristic fallback; every other exception is re-raised wrapped. -/
def run_attempts (content : String) (question_count : Int) (dd : DifficultyDist)
    (oracle : Nat → AttemptOutcome) (dist_after : Option DifficultyDist) : GenOutcome :=
  let content2 := truncate_content content
  let lp := attempt_loop oracle
  match lp.1 with
  | Except.error PyExc.timeoutErr =>
    ⟨Except.ok (generate_basic_questions content2 question_count dd), lp.2, dist_after⟩
  | Except.error e => ⟨Except.error (wrap_exc e), lp.2, dist_after⟩
  | Except.ok quiz_data =>
    let quiz :=
      match quiz_data with
      | none => generate_basic_questions content2 question_count dd
      | some rq =>
        if (rq.questions.getD []).length = 0 then
          generate_basic_questions content2 question_count dd
        else rq
    let quiz2 := postprocess_quiz quiz
    match validate_quiz_data quiz2 with
    | Except.error e => ⟨Except.error (wrap_exc e), lp.2, dist_after⟩
    | Except.ok _ => ⟨Except.ok quiz2, lp.2, dist_after⟩

/-- `LLMService.generate_quiz`: fail-fast input validation, distribution
normalization, then the retry pipeline. -/
def generate_quiz (title content : String) (question_count : Int)
    (difficulty_distribution : Option DifficultyDist) (oracle : Nat → AttemptOutcome) :
    GenOutcome :=
  if title = "" ∨ content = "" then
    ⟨Except.error (wrap_exc (PyExc.valueError "Title and content are required")), 0,
      difficulty_distribution⟩
  else if question_count < 5 ∨ question_count > 10 then
    ⟨Except.error (wrap_exc (PyExc.valueError "Question count must be between 5 and 10")), 0,
      difficulty_distribution⟩
  else
    match normalize_distribution question_count
        (initial_distribution question_count difficulty_distribution) with
    | Except.error e => ⟨Except.error (wrap_exc e), 0, difficulty_distribution⟩
    | Except.ok dd =>
      run_attempts content question_count dd oracle
        (caller_dist_after difficulty_distribution dd)

/-! ## main.py — the generate endpoint's rate limiting -/

/-- The identity the `/api/quizzes/generate` handler passes to the rate
limiter: the hardcoded `client_id = "default_client"`, ignoring the
request headers (the IP+user-agent helper `get_client_identifier` is not
called on this path). -/
def generate_endpoint_client_id (_headers : List (String × String)) : String :=
  "default_client"

/-- The endpoint's limiter call:
`cache_service.increment_rate_limit(client_id, limit=10, window=3600)`. -/
def generate_endpoint_rate_check (client : Client) (headers : List (String × String)) :
    Client × Bool :=
  increment_rate_limit client (generate_endpoint_client_id headers) 10 3600

/-! ## Specification checkers and concrete inputs -/

/-- The structural invariant of a returned question record: every required
field present, exactly 4 options, the answer among the options, and a
known difficulty. -/
def question_ok_b (q : RawQuestion) : Bool :=
  q.id.isSome && q.question.isSome && q.options.isSome && q.answer.isSome
    && q.difficulty.isSome && q.explanation.isSome && q.evidence_span.isSome
    && (q.options.getD []).length == 4
    && decide ((q.answer.getD "") ∈ q.options.getD [])
    && decide ((q.difficulty.getD "") ∈ (["easy", "medium", "hard"] : List String))

/-- Whether distribution normalization completed without raising. -/
def norm_succeeds (r : Except PyExc DifficultyDist) : Bool :=
  match r with
  | Except.ok _ => true
  | Except.error _ => false

/-- The normalized distribution of a successful normalization. -/
def norm_result_dist (r : Except PyExc DifficultyDist) : DifficultyDist :=
  match r with
  | Except.ok d => d
  | Except.error _ => []

/-- A fully populated, structurally valid question used as concrete model
output in witnesses. -/
def w2_q : RawQuestion :=
  { id := some "q1", question := some "Which statement holds?",
    options := some ["A", "B", "C", "D"], answer := some "A",
    difficulty := some "easy", explanation := some "stated in the article",
    evidence_span := some "quoted text", section_reference := some "Intro" }

/-- A valid parsed payload carrying `w2_q`. -/
def w2_quiz : RawQuiz :=
  { questions := some [w2_q], related_topics := some [],
    key_entities := some { people := [], organizations := [], locations := [] } }

/-- A question whose four options are all the same string: it passes the
structural validator, which checks the option count but not uniqueness. -/
def dup_q : RawQuestion :=
  { id := some "q1", question := some "Which statement holds?",
    options := some ["A", "A", "A", "A"], answer := some "A",
    difficulty := some "easy", explanation := some "stated in the article",
    evidence_span := some "quoted text", section_reference := some "Intro" }

/-- A parsed payload carrying the duplicate-option question. -/
def dup_quiz : RawQuiz :=
  { questions := some [dup_q], related_topics := some [],
    key_entities := some { people := [], organizations := [], locations := [] } }

/-- A sentence longer than 50 characters for end-to-end inputs. -/
def cex_sentence : String :=
  "this sentence is written to be quite long indeed for testing the heuristic path"

/-- A body of 6 sentences, each longer than 50 characters, matching the
conditions of the end-to-end provider-failure scenario. -/
def cex_body : String :=
  String.intercalate ". "
    [cex_sentence, cex_sentence ++ " two", cex_sentence ++ " three",
     cex_sentence ++ " four", cex_sentence ++ " five", cex_sentence ++ " six"] ++ "."

/-! ## Helper lemmas -/

theorem alist_get_set {α : Type} (l : List (String × α)) (k : String) (v : α) :
    alist_get (alist_set l k v) k = some v := by
  induction l with
  | nil => simp [alist_set, alist_get]
  | cons p rest ih =>
    obtain ⟨k', v'⟩ := p
    by_cases h : k' = k
    · simp [alist_set, h, alist_get]
    · simp [alist_set, h, alist_get, ih]

theorem wrap_exc_ne_timeout (e : PyExc) : wrap_exc e ≠ PyExc.timeoutErr := by
  simp [wrap_exc]

theorem add_to_key_exists {d : DifficultyDist} {k : String} (delta : Int)
    (h : has_key d k = true) : ∃ d2, add_to_key d k delta = some d2 := by
  induction d with
  | nil => simp [has_key] at h
  | cons p rest ih =>
    obtain ⟨k', v⟩ := p
    by_cases hk : k' = k
    · exact ⟨(k', v + delta) :: rest, by simp [add_to_key, hk]⟩
    · have hrest : has_key rest k = true := by
        simp [has_key, List.any_cons] at h
        rcases h with h | h
        · exact absurd h hk
        · simpa [has_key] using h
      obtain ⟨rest2, hr⟩ := ih hrest
      exact ⟨(k', v) :: rest2, by simp [add_to_key, hk, hr]⟩

theorem add_to_key_sum {d d2 : DifficultyDist} {k : String} {delta : Int}
    (h : add_to_key d k delta = some d2) : sum_values d2 = sum_values d + delta := by
  induction d generalizing d2 with
  | nil => simp [add_to_key] at h
  | cons p rest ih =>
    obtain ⟨k', v⟩ := p
    by_cases hk : k' = k
    · simp only [add_to_key, if_pos hk, Option.some.injEq] at h
      subst h
      simp only [sum_values, List.map_cons, List.sum_cons]
      omega
    · simp only [add_to_key, if_neg hk] at h
      cases hr : add_to_key rest k delta with
      | none => rw [hr] at h; simp at h
      | some rest2 =>
        rw [hr] at h
        simp only [Option.some.injEq] at h
        subst h
        have hs := ih hr
        simp only [sum_values, List.map_cons, List.sum_cons] at hs ⊢
        omega

theorem add_to_key_ne {d d2 : DifficultyDist} {k : String} {delta : Int}
    (h : add_to_key d k delta = some d2) (hd : delta ≠ 0) : d2 ≠ d := by
  induction d generalizing d2 with
  | nil => simp [add_to_key] at h
  | cons p rest ih =>
    obtain ⟨k', v⟩ := p
    by_cases hk : k' = k
    · simp only [add_to_key, if_pos hk, Option.some.injEq] at h
      subst h
      intro heq
      simp only [List.cons.injEq, Prod.mk.injEq] at heq
      omega
    · simp only [add_to_key, if_neg hk] at h
      cases hr : add_to_key rest k delta with
      | none => rw [hr] at h; simp at h
      | some rest2 =>
        rw [hr] at h
        simp only [Option.some.injEq] at h
        subst h
        have hne := ih hr
        intro heq
        simp only [List.cons.injEq] at heq
        exact hne heq.2


theorem has_key_default (n : Int) : has_key (default_distribution n) "medium" = true := rfl

theorem normalize_ok_of_has_key (n : Int) (d : DifficultyDist)
    (h : has_key d "medium" = true) :
    norm_succeeds (normalize_distribution n d) = true
    ∧ sum_values (norm_result_dist (normalize_distribution n d)) = n := by
  by_cases ht : sum_values d = n
  · simp [normalize_distribution, ht, norm_succeeds, norm_result_dist]
  · obtain ⟨d2, hd2⟩ := add_to_key_exists (n - sum_values d) h
    have hs := add_to_key_sum hd2
    simp only [normalize_distribution, if_neg ht, hd2, norm_succeeds, norm_result_dist]
    exact ⟨trivial, by omega⟩

theorem normalize_ok_exists (n : Int) (d : DifficultyDist)
    (h : has_key d "medium" = true) :
    ∃ dd, normalize_distribution n d = Except.ok dd := by
  have hm := normalize_ok_of_has_key n d h
  cases hr : normalize_distribution n d with
  | ok dd => exact ⟨dd, rfl⟩
  | error e => rw [hr] at hm; simp [norm_succeeds] at hm

theorem validate_question_ok {i : Nat} {q : RawQuestion}
    (h : validate_question i q = Except.ok ()) : question_ok_b q = true := by
  unfold validate_question at h
  by_cases h1 : q.id = none
  · rw [if_pos h1] at h; cases h
  rw [if_neg h1] at h
  by_cases h2 : q.question = none
  · rw [if_pos h2] at h; cases h
  rw [if_neg h2] at h
  by_cases h3 : q.options = none
  · rw [if_pos h3] at h; cases h
  rw [if_neg h3] at h
  by_cases h4 : q.answer = none
  · rw [if_pos h4] at h; cases h
  rw [if_neg h4] at h
  by_cases h5 : q.difficulty = none
  · rw [if_pos h5] at h; cases h
  rw [if_neg h5] at h
  by_cases h6 : q.explanation = none
  · rw [if_pos h6] at h; cases h
  rw [if_neg h6] at h
  by_cases h7 : q.evidence_span = none
  · rw [if_pos h7] at h; cases h
  rw [if_neg h7] at h
  by_cases h8 : (q.options.getD []).length ≠ 4
  · rw [if_pos h8] at h; cases h
  rw [if_neg h8] at h
  by_cases h9 : ¬ (q.difficulty.getD "") ∈ (["easy", "medium", "hard"] : List String)
  · rw [if_pos h9] at h; cases h
  rw [if_neg h9] at h
  by_cases h10 : (q.answer.getD "") ∈ q.options.getD []
  · simp only [question_ok_b, Bool.and_eq_true, beq_iff_eq, decide_eq_true_eq]
    rw [not_not] at h9
    refine ⟨⟨⟨⟨⟨⟨⟨⟨⟨?_, ?_⟩, ?_⟩, ?_⟩, ?_⟩, ?_⟩, ?_⟩, ?_⟩, ?_⟩, ?_⟩
    · exact Option.ne_none_iff_isSome.mp h1
    · exact Option.ne_none_iff_isSome.mp h2
    · exact Option.ne_none_iff_isSome.mp h3
    · exact Option.ne_none_iff_isSome.mp h4
    · exact Option.ne_none_iff_isSome.mp h5
    · exact Option.ne_none_iff_isSome.mp h6
    · exact Option.ne_none_iff_isSome.mp h7
    · omega
    · exact h10
    · exact h9
  · rw [if_neg h10] at h; cases h

theorem validate_questions_ok {i : Nat} {qs : List RawQuestion}
    (h : validate_questions i qs = Except.ok ()) : qs.all question_ok_b = true := by
  induction qs generalizing i with
  | nil => simp
  | cons q rest ih =>
    simp only [validate_questions] at h
    cases hq : validate_question i q with
    | error e => rw [hq] at h; simp at h
    | ok u =>
      rw [hq] at h
      simp only [List.all_cons, Bool.and_eq_true]
      cases u
      exact ⟨validate_question_ok hq, ih h⟩

theorem validate_quiz_data_ok {quiz : RawQuiz} (h : validate_quiz_data quiz = Except.ok ()) :
    (quiz.questions.getD []).all question_ok_b = true := by
  unfold validate_quiz_data at h
  cases hq : quiz.questions with
  | none => rw [hq] at h; simp at h
  | some qs =>
    rw [hq] at h
    simpa using validate_questions_ok h

theorem placeholder_question_ok : question_ok_b placeholder_question = true := by decide

theorem question_ok_b_of_components {idv qv av ev sv expl : String} {opts : List String}
    (hlen : opts.length = 4) (hmem : av ∈ opts) :
    question_ok_b
      { id := some idv, question := some qv, options := some opts, answer := some av,
        difficulty := some "easy", explanation := some expl, evidence_span := some ev,
        section_reference := some sv } = true := by
  simp [question_ok_b, hlen, hmem]

theorem sentence_question_ok {sentences : List String} {i : Nat} {q : RawQuestion}
    (h : sentence_question sentences i = some q) : question_ok_b q = true := by
  simp only [sentence_question] at h
  split_ifs at h with hl hw hd he <;>
    (simp only [Option.some.injEq] at h
     subst h
     apply question_ok_b_of_components
     · simp only [List.length_cons, List.length_take]
       omega
     · exact List.mem_cons_self _ _)

theorem generate_basic_questions_all_wf (content : String) (n : Int) (d : DifficultyDist) :
    ((generate_basic_questions content n d).questions.getD []).all question_ok_b = true := by
  simp only [generate_basic_questions, Option.getD_some]
  rw [List.all_eq_true]
  intro q hq
  have hq' := List.take_subset _ _ hq
  unfold pad_questions at hq'
  rcases List.mem_append.mp hq' with hcore | hpad
  · obtain ⟨i, _, hi⟩ := List.mem_filterMap.mp hcore
    exact sentence_question_ok hi
  · rw [List.eq_of_mem_replicate hpad]
    exact placeholder_question_ok

theorem run_attempts_ok_all_wf {content : String} {n : Int} {dd : DifficultyDist}
    {oracle : Nat → AttemptOutcome} {da : Option DifficultyDist} {quiz : RawQuiz}
    (h : (run_attempts content n dd oracle da).result = Except.ok quiz) :
    (quiz.questions.getD []).all question_ok_b = true := by
  simp only [run_attempts] at h
  split at h
  · simp only [Except.ok.injEq] at h
    subst h
    exact generate_basic_questions_all_wf _ _ _
  · cases h
  · split at h
    · cases h
    · rename_i hv
      simp only [Except.ok.injEq] at h
      subst h
      exact validate_quiz_data_ok hv

theorem generate_quiz_ok_all_wf {title content : String} {n : Int}
    {dist : Option DifficultyDist} {oracle : Nat → AttemptOutcome} {quiz : RawQuiz}
    (h : (generate_quiz title content n dist oracle).result = Except.ok quiz) :
    (quiz.questions.getD []).all question_ok_b = true := by
  unfold generate_quiz at h
  split_ifs at h with h1 h2
  rcases hn : normalize_distribution n (initial_distribution n dist) with e | dd <;>
    rw [hn] at h
  · exact Except.noConfusion h
  · exact run_attempts_ok_all_wf h

theorem run_attempts_dist_after (content : String) (n : Int) (dd : DifficultyDist)
    (oracle : Nat → AttemptOutcome) (da : Option DifficultyDist) :
    (run_attempts content n dd oracle da).distAfter = da := by
  simp only [run_attempts]
  split
  · rfl
  · rfl
  · split
    · rfl
    · rfl

theorem increment_up_fst (st : RedisState) (identifier : String) (limit : Nat) (window : Int) :
    ∃ st2, (increment_rate_limit (Client.up st) identifier limit window).1 = Client.up st2
      ∧ st2.counters
          = alist_set st.counters ("rate_limit:" ++ identifier)
              ((alist_get st.counters ("rate_limit:" ++ identifier)).getD 0 + 1) := by
  simp only [increment_rate_limit, redis_incr, redis_expire]
  split <;> split <;> exact ⟨_, rfl, rfl⟩

theorem increment_up_over_limit (st : RedisState) (identifier : String) (limit : Nat)
    (window : Int)
    (hover : (alist_get st.counters ("rate_limit:" ++ identifier)).getD 0 + 1 > limit) :
    (increment_rate_limit (Client.up st) identifier limit window).2 = false := by
  simp only [increment_rate_limit, redis_incr, redis_expire]
  rw [if_pos hover]

theorem acquire_iter_spec (st0 : RedisState) (identifier : String) (limit : Nat) (window : Int)
    (h : alist_get st0.counters ("rate_limit:" ++ identifier) = none) (k : Nat) :
    ∃ st, acquire_iter (Client.up st0) identifier limit window k = Client.up st
      ∧ alist_get st.counters ("rate_limit:" ++ identifier)
          = (if k = 0 then none else some k) := by
  induction k with
  | zero => exact ⟨st0, rfl, by simpa using h⟩
  | succ m ih =>
    obtain ⟨st, hst, hc⟩ := ih
    have hcur : (alist_get st.counters ("rate_limit:" ++ identifier)).getD 0 = m := by
      by_cases hm : m = 0
      · rw [if_pos hm] at hc
        rw [hc, hm]
        rfl
      · rw [if_neg hm] at hc
        rw [hc]
        rfl
    obtain ⟨st2, hinc, hc2⟩ := increment_up_fst st identifier limit window
    refine ⟨st2, ?_, ?_⟩
    · simp only [acquire_iter, hst, hinc]
    · rw [hc2, hcur, alist_get_set]
      simp

theorem generate_quiz_no_timeout (title content : String) (n : Int)
    (dist : Option DifficultyDist) (oracle : Nat → AttemptOutcome) :
    (generate_quiz title content n dist oracle).result ≠ Except.error PyExc.timeoutErr := by
  unfold generate_quiz
  split_ifs
  · intro hc
    exact wrap_exc_ne_timeout _ (Except.error.inj hc)
  · intro hc
    exact wrap_exc_ne_timeout _ (Except.error.inj hc)
  · rcases hn : normalize_distribution n (initial_distribution n dist) with e | dd
    · intro hc
      exact wrap_exc_ne_timeout _ (Except.error.inj hc)
    · simp only [run_attempts]
      split
      · intro hc
        exact Except.noConfusion hc
      · intro hc
        exact wrap_exc_ne_timeout _ (Except.error.inj hc)
      · split
        · intro hc
          exact wrap_exc_ne_timeout _ (Except.error.inj hc)
        · intro hc
          exact Except.noConfusion hc

theorem question_ok_b_length {q : RawQuestion} (h : question_ok_b q = true) :
    ((q.options.getD []).length == 4) = true := by
  simp only [question_ok_b, Bool.and_eq_true] at h
  exact h.1.1.2

/-! ## Claim theorems -/

/-- C1 (counterexample): under the claim's own conditions — title "Test", a
body of 6 sentences each longer than 50 characters, questionCount 5, and a
provider that errors on every attempt — `generate_quiz` does not return a
heuristic `QuizDraft`: it raises `Failed to generate quiz: ...`. -/
theorem c1_counterexample :
    (generate_quiz "Test" cex_body 5 none
        (fun _ => AttemptOutcome.providerError "provider unavailable")).result
      = Except.error (PyExc.genericError "Failed to generate quiz: provider unavailable") := rfl

/-- C1 (amended): when the provider fails with a provider error on every one
of the 3 attempts, `generate_quiz` (with valid title, non-empty body and
questionCount in range) re-raises on the final attempt and surfaces
`Failed to generate quiz: <provider message>` after exactly 3 provider
calls; the heuristic fallback is not reached on this path. -/
theorem c1_provider_failure_raises (title content : String) (n : Int) (msg : String)
    (ht : ¬ title = "") (hc : ¬ content = "") (h5 : 5 ≤ n) (h10 : n ≤ 10) :
    (generate_quiz title content n none (fun _ => AttemptOutcome.providerError msg)).result
        = Except.error (PyExc.genericError ("Failed to generate quiz: " ++ msg))
      ∧ (generate_quiz title content n none
          (fun _ => AttemptOutcome.providerError msg)).providerCalls = 3 := by
  obtain ⟨dd, hdd⟩ := normalize_ok_exists n (default_distribution n) (has_key_default n)
  have hinit : initial_distribution n none = default_distribution n := rfl
  unfold generate_quiz
  rw [if_neg (not_or.mpr ⟨ht, hc⟩), if_neg (by omega), hinit, hdd]
  exact ⟨rfl, rfl⟩

/-- C1 witness: the amended theorem applied at title "Test", the 6-sentence
body, questionCount 5 and provider message "boom". -/
theorem c1_provider_failure_raises_witness :
    (generate_quiz "Test" cex_body 5 none (fun _ => AttemptOutcome.providerError "boom")).result
        = Except.error (PyExc.genericError ("Failed to generate quiz: " ++ "boom"))
      ∧ (generate_quiz "Test" cex_body 5 none
          (fun _ => AttemptOutcome.providerError "boom")).providerCalls = 3 :=
  c1_provider_failure_raises "Test" cex_body 5 "boom" (by decide) (by decide) (by decide)
    (by decide)

/-- C2: every `QuizDraft` actually returned by `generate_quiz` (on the
parse path, the heuristic-fallback path and the timeout path alike) has
only questions with all required fields, exactly 4 options, the answer
among the options, and difficulty in easy/medium/hard. -/
theorem c2_returned_questions_structurally_valid (title content : String) (n : Int)
    (dist : Option DifficultyDist) (oracle : Nat → AttemptOutcome) (quiz : RawQuiz)
    (h : (generate_quiz title content n dist oracle).result = Except.ok quiz) :
    (quiz.questions.getD []).all question_ok_b = true :=
  generate_quiz_ok_all_wf h

/-- C2 witness: a concrete run whose oracle parses a valid payload. -/
theorem c2_returned_questions_structurally_valid_witness :
    (w2_quiz.questions.getD []).all question_ok_b = true :=
  c2_returned_questions_structurally_valid "Test" "Some article content." 5 none
    (fun _ => AttemptOutcome.parsed w2_quiz) w2_quiz rfl

/-- C3 (counterexample): a partial caller distribution without a "medium"
key whose sum differs from questionCount makes normalization raise
`KeyError: medium` instead of producing a distribution summing to
questionCount. -/
theorem c3_counterexample :
    normalize_distribution 5 (initial_distribution 5 (some [("easy", 2)]))
        = Except.error (PyExc.keyError "medium")
      ∧ norm_succeeds (normalize_distribution 5 (initial_distribution 5 (some [("easy", 2)])))
          = false :=
  ⟨rfl, rfl⟩

/-- C3 (amended): for questionCount in [5,10] and an input distribution that
is absent, empty, or contains a "medium" key, normalization succeeds and
its values sum to exactly questionCount (the difference being added to the
"medium" entry, which may become negative). -/
theorem c3_normalization_sums (n : Int) (dist : Option DifficultyDist)
    (_h5 : 5 ≤ n) (_h10 : n ≤ 10)
    (h : dist = none ∨ dist = some [] ∨ ∃ d, dist = some d ∧ has_key d "medium" = true) :
    norm_succeeds (normalize_distribution n (initial_distribution n dist)) = true
      ∧ sum_values (norm_result_dist (normalize_distribution n (initial_distribution n dist)))
          = n := by
  have hk : has_key (initial_distribution n dist) "medium" = true := by
    rcases h with rfl | rfl | ⟨d, rfl, hd⟩
    · exact has_key_default n
    · exact has_key_default n
    · cases d with
      | nil => exact has_key_default n
      | cons p rest => exact hd
  exact normalize_ok_of_has_key n _ hk

/-- C3 witness: the amended theorem applied to n = 5 and the partial
distribution easy 9, medium 0 (sum 9 ≠ 5; medium becomes -4). -/
theorem c3_normalization_sums_witness :
    norm_succeeds (normalize_distribution 5
        (initial_distribution 5 (some [("easy", 9), ("medium", 0)]))) = true
      ∧ sum_values (norm_result_dist (normalize_distribution 5
          (initial_distribution 5 (some [("easy", 9), ("medium", 0)])))) = 5 :=
  c3_normalization_sums 5 (some [("easy", 9), ("medium", 0)]) (by decide) (by decide)
    (Or.inr (Or.inr ⟨[("easy", 9), ("medium", 0)], rfl, rfl⟩))

/-- C4: with a reachable store and a fresh window, the stored counter after
k tryAcquire calls for an identity equals k for every k (refused
increments are not rolled back), and the (L+1)th call returns
allowed = false. -/
theorem c4_rate_limit_counter_and_refusal (st0 : RedisState) (identifier : String)
    (limit : Nat) (window : Int)
    (h : alist_get st0.counters ("rate_limit:" ++ identifier) = none) :
    (∀ k, client_counter (acquire_iter (Client.up st0) identifier limit window (k + 1))
        ("rate_limit:" ++ identifier) = some (k + 1))
      ∧ (increment_rate_limit (acquire_iter (Client.up st0) identifier limit window limit)
          identifier limit window).2 = false := by
  constructor
  · intro k
    obtain ⟨st, hst, hc⟩ := acquire_iter_spec st0 identifier limit window h (k + 1)
    rw [hst]
    simpa [client_counter] using hc
  · obtain ⟨st, hst, hc⟩ := acquire_iter_spec st0 identifier limit window h limit
    rw [hst]
    apply increment_up_over_limit
    by_cases hl0 : limit = 0
    · rw [if_pos hl0] at hc
      rw [hc]
      simp [hl0]
    · rw [if_neg hl0] at hc
      rw [hc]
      simp

/-- C4 witness: an empty store, identity "client-a", limit 10: counter is 11
after 11 calls and the 11th call is refused. -/
theorem c4_rate_limit_counter_and_refusal_witness :
    client_counter (acquire_iter (Client.up ⟨[], [], []⟩) "client-a" 10 3600 11)
        ("rate_limit:" ++ "client-a") = some 11
      ∧ (increment_rate_limit (acquire_iter (Client.up ⟨[], [], []⟩) "client-a" 10 3600 10)
          "client-a" 10 3600).2 = false := by
  have h := c4_rate_limit_counter_and_refusal ⟨[], [], []⟩ "client-a" 10 3600 rfl
  exact ⟨h.1 10, h.2⟩

/-- C5: when the backing store is unreachable (client missing, or present
but raising), no modelled operation raises: cache reads return absent,
cache writes report failure, and tryAcquire fails open with true. -/
theorem c5_fail_open_operations (st : RedisState) (quiz_id user_id identifier payload : String)
    (ttl window : Int) (limit : Nat) :
    get_cached_quiz Client.disconnected quiz_id = none
      ∧ get_cached_quiz (Client.unreachable st) quiz_id = none
      ∧ get_cached_quiz_list Client.disconnected user_id = none
      ∧ get_cached_quiz_list (Client.unreachable st) user_id = none
      ∧ (cache_quiz Client.disconnected quiz_id payload ttl).2 = false
      ∧ (cache_quiz (Client.unreachable st) quiz_id payload ttl).2 = false
      ∧ (cache_quiz_list Client.disconnected user_id payload ttl).2 = false
      ∧ (cache_quiz_list (Client.unreachable st) user_id payload ttl).2 = false
      ∧ (increment_rate_limit Client.disconnected identifier limit window).2 = true
      ∧ (increment_rate_limit (Client.unreachable st) identifier limit window).2 = true :=
  ⟨rfl, rfl, rfl, rfl, rfl, rfl, rfl, rfl, rfl, rfl⟩

/-- C6: a missing title, missing content, or questionCount outside [5,10]
makes `generate_quiz` fail with the fail-fast input rejection before any
provider call (0 provider invocations, hence also no retry). -/
theorem c6_invalid_input_fails_fast (title content : String) (n : Int)
    (dist : Option DifficultyDist) (oracle : Nat → AttemptOutcome)
    (h : title = "" ∨ content = "" ∨ n < 5 ∨ n > 10) :
    ((generate_quiz title content n dist oracle).result
          = Except.error (wrap_exc (PyExc.valueError "Title and content are required"))
        ∨ (generate_quiz title content n dist oracle).result
          = Except.error (wrap_exc (PyExc.valueError "Question count must be between 5 and 10")))
      ∧ (generate_quiz title content n dist oracle).providerCalls = 0 := by
  unfold generate_quiz
  by_cases h1 : title = "" ∨ content = ""
  · rw [if_pos h1]
    exact ⟨Or.inl rfl, rfl⟩
  · have h2 : n < 5 ∨ n > 10 := by tauto
    rw [if_neg h1, if_pos h2]
    exact ⟨Or.inr rfl, rfl⟩

/-- C6 witness: questionCount 4 is rejected with no provider call. -/
theorem c6_invalid_input_fails_fast_witness :
    ((generate_quiz "Test" "Some article content." 4 none
          (fun _ => AttemptOutcome.providerError "x")).result
          = Except.error (wrap_exc (PyExc.valueError "Title and content are required"))
        ∨ (generate_quiz "Test" "Some article content." 4 none
          (fun _ => AttemptOutcome.providerError "x")).result
          = Except.error (wrap_exc (PyExc.valueError "Question count must be between 5 and 10")))
      ∧ (generate_quiz "Test" "Some article content." 4 none
          (fun _ => AttemptOutcome.providerError "x")).providerCalls = 0 :=
  c6_invalid_input_fails_fast "Test" "Some article content." 4 none
    (fun _ => AttemptOutcome.providerError "x") (Or.inr (Or.inr (Or.inl (by decide))))

/-- C7: a TimeoutError escaping the attempt loop makes `generate_quiz`
return the heuristic-fallback quiz built from the truncated body and the
normalized distribution instead of raising; moreover no call of
`generate_quiz` ever surfaces the timeout as an error. -/
theorem c7_timeout_returns_fallback (title content : String) (n : Int)
    (dist : Option DifficultyDist) (dd : DifficultyDist) (oracle : Nat → AttemptOutcome)
    (ht : ¬ title = "") (hc : ¬ content = "") (h5 : 5 ≤ n) (h10 : n ≤ 10)
    (hn : normalize_distribution n (initial_distribution n dist) = Except.ok dd)
    (hl : (attempt_loop oracle).1 = Except.error PyExc.timeoutErr) :
    (generate_quiz title content n dist oracle).result
        = Except.ok (generate_basic_questions (truncate_content content) n dd)
      ∧ ∀ (t c : String) (m : Int) (d : Option DifficultyDist) (o : Nat → AttemptOutcome),
          (generate_quiz t c m d o).result ≠ Except.error PyExc.timeoutErr := by
  constructor
  · unfold generate_quiz
    rw [if_neg (not_or.mpr ⟨ht, hc⟩), if_neg (by omega), hn]
    simp only [run_attempts]
    rw [hl]
  · intro t c m d o
    exact generate_quiz_no_timeout t c m d o

/-- C7 witness: a run whose provider call times out on every attempt
returns the heuristic fallback. -/
theorem c7_timeout_returns_fallback_witness :
    (generate_quiz "Test" "Some article content." 5 none
        (fun _ => AttemptOutcome.timeoutDuringCall)).result
      = Except.ok (generate_basic_questions (truncate_content "Some article content.") 5
          [("easy", 2), ("medium", 1), ("hard", 2)]) :=
  (c7_timeout_returns_fallback "Test" "Some article content." 5 none
      [("easy", 2), ("medium", 1), ("hard", 2)] (fun _ => AttemptOutcome.timeoutDuringCall)
      (by decide) (by decide) (by decide) (by decide) rfl rfl).1

/-- C8 (counterexample): a model-parsed question with options
["A","A","A","A"] passes validation and is returned unchanged, so returned
options are not pairwise distinct. -/
theorem c8_counterexample :
    (generate_quiz "Test" "Some article content." 5 none
        (fun _ => AttemptOutcome.parsed dup_quiz)).result = Except.ok dup_quiz
      ∧ dup_q ∈ dup_quiz.questions.getD []
      ∧ ¬ (dup_q.options.getD []).Nodup :=
  ⟨rfl, by decide, by decide⟩

/-- C8 (amended): every question in a returned `QuizDraft` has exactly 4
options; their pairwise distinctness is not guaranteed (neither the
validator nor the heuristic generator checks uniqueness). -/
theorem c8_options_exactly_four (title content : String) (n : Int)
    (dist : Option DifficultyDist) (oracle : Nat → AttemptOutcome) (quiz : RawQuiz)
    (h : (generate_quiz title content n dist oracle).result = Except.ok quiz) :
    (quiz.questions.getD []).all (fun q => (q.options.getD []).length == 4) = true := by
  have hall := generate_quiz_ok_all_wf h
  rw [List.all_eq_true] at hall ⊢
  intro q hq
  exact question_ok_b_length (hall q hq)

/-- C8 witness: the amended theorem applied to a concrete valid run. -/
theorem c8_options_exactly_four_witness :
    (w2_quiz.questions.getD []).all (fun q => (q.options.getD []).length == 4) = true :=
  c8_options_exactly_four "Test" "Some article content." 5 none
    (fun _ => AttemptOutcome.parsed w2_quiz) w2_quiz rfl

/-- C9: the generate endpoint passes the fixed identity "default_client" to
the rate limiter for every request: two requests whose headers differ in
IP and user agent map to the same identity and increment the same counter
(to 2), contradicting per-client counters. -/
theorem c9_endpoint_identity_constant :
    generate_endpoint_client_id
        [("x-forwarded-for", "203.0.113.5"), ("user-agent", "Mozilla/5.0")]
        = generate_endpoint_client_id
          [("x-forwarded-for", "198.51.100.7"), ("user-agent", "curl/8.0")]
      ∧ ([("x-forwarded-for", "203.0.113.5"), ("user-agent", "Mozilla/5.0")]
            : List (String × String))
          ≠ [("x-forwarded-for", "198.51.100.7"), ("user-agent", "curl/8.0")]
      ∧ client_counter
          (generate_endpoint_rate_check
            (generate_endpoint_rate_check (Client.up ⟨[], [], []⟩)
              [("x-forwarded-for", "203.0.113.5"), ("user-agent", "Mozilla/5.0")]).1
            [("x-forwarded-for", "198.51.100.7"), ("user-agent", "curl/8.0")]).1
          ("rate_limit:" ++ generate_endpoint_client_id
            [("x-forwarded-for", "203.0.113.5"), ("user-agent", "Mozilla/5.0")]) = some 2 :=
  ⟨rfl, by decide, rfl⟩

/-- C10 (counterexample): a supplied distribution without a "medium" key
whose sum differs from questionCount is NOT mutated: the call fails with
`KeyError` and the caller's dict is unchanged. -/
theorem c10_counterexample :
    (generate_quiz "Test" "Some article content." 5 (some [("easy", 2)])
        (fun _ => AttemptOutcome.parsed w2_quiz)).distAfter = some [("easy", 2)]
      ∧ sum_values [("easy", 2)] ≠ 5
      ∧ (generate_quiz "Test" "Some article content." 5 (some [("easy", 2)])
          (fun _ => AttemptOutcome.parsed w2_quiz)).result
          = Except.error (PyExc.genericError "Failed to generate quiz: \x27medium\x27") :=
  ⟨rfl, by decide, rfl⟩

/-- C10 (amended): when the inputs pass fail-fast validation and the caller
supplies a non-empty distribution containing "medium" whose values do not
sum to questionCount, `generate_quiz` mutates the caller's dict in place:
afterwards it differs from what was passed, holding the medium-adjusted
values (immutable arguments are untouched; with "medium" absent the call
raises and the dict stays unchanged). -/
theorem c10_distribution_mutated_in_place (title content : String) (n : Int)
    (d : DifficultyDist) (oracle : Nat → AttemptOutcome)
    (ht : ¬ title = "") (hc : ¬ content = "") (h5 : 5 ≤ n) (h10 : n ≤ 10)
    (hne : d ≠ []) (hmed : has_key d "medium" = true) (hsum : sum_values d ≠ n) :
    (generate_quiz title content n (some d) oracle).distAfter ≠ some d
      ∧ ∀ d2, add_to_key d "medium" (n - sum_values d) = some d2 →
          (generate_quiz title content n (some d) oracle).distAfter = some d2 := by
  obtain ⟨d2, hd2⟩ := add_to_key_exists (n - sum_values d) hmed
  have hinit : initial_distribution n (some d) = d := by
    cases d with
    | nil => exact absurd rfl hne
    | cons p rest => rfl
  have hnorm : normalize_distribution n (initial_distribution n (some d)) = Except.ok d2 := by
    rw [hinit]
    simp only [normalize_distribution, if_neg hsum, hd2]
  have hda : (generate_quiz title content n (some d) oracle).distAfter = some d2 := by
    unfold generate_quiz
    rw [if_neg (not_or.mpr ⟨ht, hc⟩), if_neg (by omega), hnorm]
    rw [run_attempts_dist_after]
    cases d with
    | nil => exact absurd rfl hne
    | cons p rest => rfl
  refine ⟨?_, ?_⟩
  · rw [hda]
    intro hcon
    exact add_to_key_ne hd2 (by omega) (Option.some.inj hcon)
  · intro d3 hd3
    rw [hd2] at hd3
    rw [hda, Option.some.inj hd3]

/-- C10 witness: the amended theorem at n = 5 with caller dict
easy 9, medium 0 (sum 9): the caller's dict is changed by the call. -/
theorem c10_distribution_mutated_in_place_witness :
    (generate_quiz "Test" "Some article content." 5 (some [("easy", 9), ("medium", 0)])
        (fun _ => AttemptOutcome.parsed w2_quiz)).distAfter
      ≠ some [("easy", 9), ("medium", 0)] :=
  (c10_distribution_mutated_in_place "Test" "Some article content." 5
      [("easy", 9), ("medium", 0)] (fun _ => AttemptOutcome.parsed w2_quiz)
      (by decide) (by decide) (by decide) (by decide) (by decide) rfl (by decide)).1
